import Mathlib

/-!
Shallow embedding of the HDA data-cleansing core (excelProcessor service):
field parsers (`parseDate`, `parseAmount`), the per-row classification
pipeline of `processData` (prescription, immunity, exemption, incomplete
rules in fixed order), and the summary aggregation.

Modelling conventions:
* A JS `Date` value is a count of civil days since 1970-01-01 (proleptic
  Gregorian), so `Date` comparison is `<` on `ℤ`.  Times of day and time
  zones are abstracted away: the rules only ever compare dates built at
  midnight.
* JS numbers are modelled as `ℚ` (spec asks for exact arithmetic).
* A raw cell is the closed variant {absent, number, string, date}.
* Advisory progress callbacks are omitted (the spec marks them as
  telemetry that may be a no-op collaborator).
-/

/-- Civil days since 1970-01-01 for year/month/day, proleptic Gregorian
(month `1..12`; the day may be out of range, adding days linearly, which
matches JS `Date` day normalization). -/
def daysFromCivil (y m d : ℤ) : ℤ :=
  let y2 := if m ≤ 2 then y - 1 else y
  let era := Int.fdiv y2 400
  let yoe := y2 - era * 400
  let mp := if m > 2 then m - 3 else m + 9
  let doy := Int.fdiv (153 * mp + 2) 5 + d - 1
  let doe := yoe * 365 + Int.fdiv yoe 4 - Int.fdiv yoe 100 + doy
  era * 146097 + doe - 719468

/-- Inverse of `daysFromCivil`: the (year, month, day) of a day count. -/
def civilFromDays (z0 : ℤ) : ℤ × ℤ × ℤ :=
  let z := z0 + 719468
  let era := Int.fdiv z 146097
  let doe := z - era * 146097
  let yoe :=
    Int.fdiv (doe - Int.fdiv doe 1460 + Int.fdiv doe 36524 - Int.fdiv doe 146096) 365
  let y := yoe + era * 400
  let doy := doe - (365 * yoe + Int.fdiv yoe 4 - Int.fdiv yoe 100)
  let mp := Int.fdiv (5 * doy + 2) 153
  let d := doy - Int.fdiv (153 * mp + 2) 5 + 1
  let m := if mp < 10 then mp + 3 else mp - 9
  (if m ≤ 2 then y + 1 else y, m, d)

/-- JS `new Date(y, m0, d)` at midnight: zero-based month `m0` (any
integer, normalized into the year as JS does), day-of-month `d` (any
integer, normalized by adding days). -/
def mkDate (y m0 d : ℤ) : ℤ :=
  daysFromCivil (y + Int.fdiv m0 12) (Int.emod m0 12 + 1) d

/-- JS `Date.prototype.getFullYear`. -/
def jsGetFullYear (t : ℤ) : ℤ :=
  (civilFromDays t).1

/-- JS `Date.prototype.setFullYear y`: keep month and day-of-month
(a Feb-29 day overflowing a non-leap target year rolls into March,
exactly as in JS, via the linear day handling of `daysFromCivil`). -/
def jsSetFullYear (t y : ℤ) : ℤ :=
  daysFromCivil y (civilFromDays t).2.1 (civilFromDays t).2.2

/-- Two-digit padding used by the pt-BR date format. -/
def pad2 (n : ℤ) : String :=
  if n < 10 then "0" ++ toString n else toString n

/-- JS `toLocaleDateString` under the pt-BR locale: `dd/mm/yyyy`. -/
def formatDateBR (t : ℤ) : String :=
  pad2 (civilFromDays t).2.2 ++ "/" ++ pad2 (civilFromDays t).2.1 ++ "/" ++
    toString (civilFromDays t).1

/-- Whitespace for JS `trim` / `\s` (common ASCII whitespace plus NBSP;
exotic Unicode space characters are not exercised by this code's inputs). -/
def jsIsSpace (c : Char) : Bool :=
  c == ' ' || c == '\t' || c == '\n' || c == '\r' ||
    c == '\x0b' || c == '\x0c' || c.toNat == 0xa0

/-- JS `String.prototype.trim`. -/
def jsTrim (s : String) : String :=
  ⟨((s.data.dropWhile jsIsSpace).reverse.dropWhile jsIsSpace).reverse⟩

/-- JS `toUpperCase` on one character, covering ASCII and the Latin-1
letters that occur in the pt-BR keywords (full Unicode case mapping is
abstracted; no other characters are exercised). -/
def jsToUpperChar (c : Char) : Char :=
  if 'a' ≤ c && c ≤ 'z' then Char.ofNat (c.toNat - 32)
  else if 0xe0 ≤ c.toNat && c.toNat ≤ 0xfe && c.toNat ≠ 0xf7 then Char.ofNat (c.toNat - 32)
  else if c.toNat = 0xff then Char.ofNat 0x178
  else c

/-- JS `String.prototype.toUpperCase`. -/
def jsToUpper (s : String) : String :=
  ⟨s.data.map jsToUpperChar⟩

/-- JS `replace(/[^0-9]/g, '')`. -/
def digitsOnly (s : String) : String :=
  ⟨s.data.filter Char.isDigit⟩

/-- JS `String.prototype.includes`: substring containment. -/
def strContains (hay needle : String) : Bool :=
  hay.data.tails.any (fun t => needle.data.isPrefixOf t)

/-- A raw spreadsheet cell value: the closed variant the parsers pattern
match on. -/
inductive CellValue where
  | absent
  | num (q : ℚ)
  | str (s : String)
  | date (t : ℤ)
deriving DecidableEq

/-- JS truthiness test (`!value`) on a cell value: `undefined`, `0` and
`""` are falsy; `Date` objects are always truthy. -/
def isFalsy : CellValue → Bool
  | .absent => true
  | .num q => q == 0
  | .str s => s == ""
  | .date _ => false

/-- JS `value || ''`. -/
def jsOrEmpty (v : CellValue) : CellValue :=
  if isFalsy v then .str "" else v

/-- JS number-to-string conversion, exact for integral values (the only
numeric cells the classification strings ever render); the decimal
rendering of non-integral floats is abstracted as `num/den`. -/
def qToString (q : ℚ) : String :=
  if q.den = 1 then toString q.num else toString q.num ++ "/" ++ toString q.den

/-- JS `String(v)` conversion of a cell value.  Date cells are never
converted to strings by the classification pipeline on the inputs the
claims exercise, so their JS locale string is abstracted. -/
def jsString : CellValue → String
  | .absent => "undefined"
  | .num q => qToString q
  | .str s => s
  | .date _ => "[object Date]"

/-- The numeric value of a digit list (most significant first). -/
def natOfDigits (l : List Char) : ℕ :=
  l.foldl (fun acc c => 10 * acc + (c.toNat - 48)) 0

/-- Mantissa/exponent assembly for `parseFloat`: the rational
`sign * digits * 10 ^ (exp - fracLen)`. -/
def floatVal (sign : ℤ) (digits : List Char) (fracLen : ℕ) (exp : ℤ) : ℚ :=
  let mant : ℚ := (natOfDigits digits : ℚ)
  let e := exp - (fracLen : ℤ)
  if 0 ≤ e then sign * mant * (10 : ℚ) ^ e.toNat
  else sign * mant / (10 : ℚ) ^ (-e).toNat

/-- JS `parseFloat` on a string, restricted to finite decimal literals
(`Infinity` prefixes, which no cell in scope produces, are out of the
model).  Parses the longest valid prefix: optional sign, digits with an
optional fractional part, and an exponent part only when it is complete;
returns `none` where JS returns `NaN`. -/
def parseFloatQ (s : String) : Option ℚ :=
  let cs := s.data.dropWhile jsIsSpace
  let sign : ℤ := match cs with | '-' :: _ => -1 | _ => 1
  let cs1 := match cs with | '-' :: r => r | '+' :: r => r | _ => cs
  let intPart := cs1.takeWhile Char.isDigit
  let rest1 := cs1.dropWhile Char.isDigit
  let fracPart :=
    match rest1 with
    | '.' :: r => r.takeWhile Char.isDigit
    | _ => []
  let afterMant :=
    match rest1 with
    | '.' :: r => r.dropWhile Char.isDigit
    | _ => rest1
  if intPart.isEmpty && fracPart.isEmpty then none
  else
    let expVal : ℤ :=
      match afterMant with
      | 'e' :: '-' :: r => if (r.takeWhile Char.isDigit).isEmpty then 0 else
          -(natOfDigits (r.takeWhile Char.isDigit) : ℤ)
      | 'E' :: '-' :: r => if (r.takeWhile Char.isDigit).isEmpty then 0 else
          -(natOfDigits (r.takeWhile Char.isDigit) : ℤ)
      | 'e' :: '+' :: r => (natOfDigits (r.takeWhile Char.isDigit) : ℤ)
      | 'E' :: '+' :: r => (natOfDigits (r.takeWhile Char.isDigit) : ℤ)
      | 'e' :: r => (natOfDigits (r.takeWhile Char.isDigit) : ℤ)
      | 'E' :: r => (natOfDigits (r.takeWhile Char.isDigit) : ℤ)
      | _ => 0
    some (floatVal sign (intPart ++ fracPart) fracPart.length expVal)

/-- Digit value of a character. -/
def digitVal (c : Char) : ℕ :=
  c.toNat - 48

/-- Matches `^(\d{2})X(\d{2})X(\d{4})$` for a separator `X`, returning the
three numeric groups (JS `parseInt` on the 2- and 4-digit groups). -/
def match224 (sep : Char) (s : String) : Option (ℤ × ℤ × ℤ) :=
  match s.data with
  | [a, b, x, c, d, y, e, f, g, h] =>
    if a.isDigit && b.isDigit && x == sep && c.isDigit && d.isDigit && y == sep &&
        e.isDigit && f.isDigit && g.isDigit && h.isDigit then
      some ((10 * digitVal a + digitVal b : ℕ), (10 * digitVal c + digitVal d : ℕ),
        (1000 * digitVal e + 100 * digitVal f + 10 * digitVal g + digitVal h : ℕ))
    else none
  | _ => none

/-- Matches `^(\d{4})-(\d{2})-(\d{2})$`, returning the numeric groups. -/
def match422 (s : String) : Option (ℤ × ℤ × ℤ) :=
  match s.data with
  | [a, b, c, d, x, e, f, y, g, h] =>
    if a.isDigit && b.isDigit && c.isDigit && d.isDigit && x == '-' &&
        e.isDigit && f.isDigit && y == '-' && g.isDigit && h.isDigit then
      some ((1000 * digitVal a + 100 * digitVal b + 10 * digitVal c + digitVal d : ℕ),
        (10 * digitVal e + digitVal f : ℕ), (10 * digitVal g + digitVal h : ℕ))
    else none
  | _ => none

/-- Whether a (trimmed) string matches `^\d{4}$`. -/
def isFourDigits (s : String) : Bool :=
  s.length == 4 && s.data.all Char.isDigit

/-- The date `XLSX.SSF.parse_date_code` assigns to an Excel serial day
number `n` (1900 date system: serial 1 is 1900-01-01; serial 60 is the
phantom 1900-02-29, which JS `new Date` normalizes to 1900-03-01). -/
def excelSerialToDays (n : ℤ) : ℤ :=
  if n = 60 then mkDate 1900 1 29
  else mkDate 1900 0 1 + ((if n > 60 then n - 1 else n) - 1)

/-- `parseDate` of the excelProcessor service: falsy input gives no date;
a `Date` cell passes through; a number in `[1900, 2100]` is a bare year
(January 1); any other number is an Excel serial date; a trimmed string
of exactly four digits in `[1900, 2100]` is a bare year; otherwise the
`DD/MM/YYYY`, `YYYY-MM-DD`, `DD-MM-YYYY` patterns are tried in order. -/
def parseDate (v : CellValue) : Option ℤ :=
  if isFalsy v then none
  else
    match v with
    | .date t => some t
    | .num q =>
      if 1900 ≤ q ∧ q ≤ 2100 then some (mkDate ⌊q⌋ 0 1)
      else if q > 2958465 ∨ q < 0 then none
      else some (excelSerialToDays ⌊q⌋)
    | .str s =>
      let cleaned := jsTrim s
      if isFourDigits cleaned ∧ 1900 ≤ (natOfDigits cleaned.data : ℤ) ∧
          (natOfDigits cleaned.data : ℤ) ≤ 2100 then
        some (mkDate (natOfDigits cleaned.data : ℤ) 0 1)
      else
        match match224 '/' cleaned with
        | some (d, m, y) => some (mkDate y (m - 1) d)
        | none =>
          match match422 cleaned with
          | some (y, m, d) => some (mkDate y (m - 1) d)
          | none =>
            match match224 '-' cleaned with
            | some (d, m, y) => some (mkDate y (m - 1) d)
            | none => none
    | .absent => none

/-- State machine for `replace(/R\$\s*/g, '')`: the flag records being
inside the whitespace run that follows a removed `R$`. -/
def stripCurrencyAux : Bool → List Char → List Char
  | _, [] => []
  | _, 'R' :: '$' :: rest => stripCurrencyAux true rest
  | skip, c :: rest =>
    if skip && jsIsSpace c then stripCurrencyAux skip rest
    else c :: stripCurrencyAux false rest

/-- JS `replace(/R\$\s*/g, '')`: removes every occurrence of `R$`
followed by any run of whitespace. -/
def stripCurrency (l : List Char) : List Char :=
  stripCurrencyAux false l

/-- JS `replace(c, r)` with a plain string pattern: first occurrence only. -/
def replaceFirstChar (c r : Char) : List Char → List Char
  | [] => []
  | x :: xs => if x == c then r :: xs else x :: replaceFirstChar c r xs

/-- `parseAmount` of the excelProcessor service: falsy input gives 0;
numbers pass through; strings are stripped of currency markers and
trimmed, `1.234,56`-style separators are normalized, and the result is
`parseFloat`ed with `NaN` degrading to 0; any other cell gives 0. -/
def parseAmount (v : CellValue) : ℚ :=
  if isFalsy v then 0
  else
    match v with
    | .num q => q
    | .str s =>
      let cleaned := (jsTrim ⟨stripCurrency s.data⟩).data
      let cleaned2 :=
        if cleaned.contains ',' && cleaned.contains '.' then
          replaceFirstChar ',' '.' (cleaned.filter (fun c => c != '.'))
        else if cleaned.contains ',' then
          replaceFirstChar ',' '.' cleaned
        else cleaned
      match parseFloatQ ⟨cleaned2⟩ with
      | some q => q
      | none => 0
    | _ => 0

/-- A spreadsheet row: an association list from column name to raw cell
value (`sheet_to_json` produces unique keys in column order). -/
abbrev Row : Type := List (String × CellValue)

/-- JS `row[col]` (`undefined`, i.e. `absent`, when the key is missing). -/
def rowGet (r : Row) (c : String) : CellValue :=
  match r.find? (fun p => p.1 == c) with
  | some p => p.2
  | none => .absent

/-- JS `row.hasOwnProperty col`. -/
def hasCol (r : Row) (c : String) : Bool :=
  r.any (fun p => p.1 == c)

/-- JS object spread update `{...r, k: v}`: replaces the value in place
when the key exists, otherwise appends the key at the end. -/
def setKey (r : Row) (k : String) (v : CellValue) : Row :=
  if hasCol r k then r.map (fun p => if p.1 == k then (k, v) else p)
  else r ++ [(k, v)]

/-- Column name of the added status field. -/
def statusKey : String := "Status_Higienizacao"

/-- Column name of the added reason field. -/
def motivoKey : String := "Motivo_Higienizacao"

/-- The annotated row `{...row, Status_Higienizacao, Motivo_Higienizacao}`. -/
def annotateRow (r : Row) (status motivo : String) : Row :=
  setKey (setKey r statusKey (.str status)) motivoKey (.str motivo)

/-- The `ColumnMapping` record; an optional field that is unmapped holds
`""` (both `undefined` and the empty string are falsy in the source's
`mapping.x ?` tests). -/
structure ColumnMapping where
  debt_id : String
  taxpayer_name : String
  cpf_cnpj : String
  due_date : String
  amount : String
  tribute_type : String
  tax_year : String
deriving DecidableEq

/-- Prescription rule configuration.  `reference_date` models the parsed
`new Date(config.prescription.reference_date)` as the civil day it
denotes; `none` means "use now". -/
structure PrescriptionRules where
  enabled : Bool
  years : ℤ
  reference_date : Option ℤ
deriving DecidableEq

/-- Immunity rule configuration. -/
structure ImmunityRules where
  enabled : Bool
  keywords : List String
deriving DecidableEq

/-- Exemption rule configuration. -/
structure ExemptionRules where
  enabled : Bool
  amount_threshold : ℚ
  tributes : List String
deriving DecidableEq

/-- Incomplete-data rule configuration. -/
structure IncompleteRules where
  enabled : Bool
  keywords : List String
  check_cpf_cnpj : Bool
deriving DecidableEq

/-- The full cleansing configuration. -/
structure CleansingConfig where
  mapping : ColumnMapping
  prescription : PrescriptionRules
  immunity : ImmunityRules
  exemption : ExemptionRules
  incomplete : IncompleteRules
deriving DecidableEq

/-- The per-row `tempDate` derived value: `parseDate(row[mapping.due_date])`. -/
def tempDateOf (m : ColumnMapping) (row : Row) : Option ℤ :=
  parseDate (rowGet row m.due_date)

/-- The per-row `tempAmount` derived value: `parseAmount(row[mapping.amount])`. -/
def tempAmountOf (m : ColumnMapping) (row : Row) : ℚ :=
  parseAmount (rowGet row m.amount)

/-- The per-row `tempName` derived value:
`String(row[mapping.taxpayer_name] || '').toUpperCase()` (no trimming). -/
def tempNameOf (m : ColumnMapping) (row : Row) : String :=
  jsToUpper (jsString (jsOrEmpty (rowGet row m.taxpayer_name)))

/-- The per-row `tempDoc` derived value: digits of the document cell when
the `cpf_cnpj` column is mapped, else the empty string. -/
def tempDocOf (m : ColumnMapping) (row : Row) : String :=
  if m.cpf_cnpj ≠ "" then digitsOnly (jsString (jsOrEmpty (rowGet row m.cpf_cnpj)))
  else ""

/-- The per-row `tempTribute` derived value: the uppercased tribute cell
when the `tribute_type` column is mapped, else the empty string. -/
def tempTributeOf (m : ColumnMapping) (row : Row) : String :=
  if m.tribute_type ≠ "" then jsToUpper (jsString (jsOrEmpty (rowGet row m.tribute_type)))
  else ""

/-- The prescription cutoff: the reference date (or `now`) with its year
decremented by `config.prescription.years` via `setFullYear`. -/
def prescriptionCutoff (cfg : CleansingConfig) (now : ℤ) : ℤ :=
  let refDate := cfg.prescription.reference_date.getD now
  jsSetFullYear refDate (jsGetFullYear refDate - cfg.prescription.years)

/-- Rule 1 (prescription) as a transformer of the `(status, motivo)`
state: fires only while the status is still `Válido`, and only when a
parsed due date exists and is strictly before the cutoff. -/
def prescriptionStep (cfg : CleansingConfig) (now : ℤ) (date? : Option ℤ)
    (st : String × String) : String × String :=
  if cfg.prescription.enabled && st.1 == "Válido" then
    match date? with
    | some d =>
      if d < prescriptionCutoff cfg now then
        ("Prescrito", "Vencimento anterior a " ++ formatDateBR (prescriptionCutoff cfg now))
      else st
    | none => st
  else st

/-- Rule 2 (immunity): fires when any configured keyword occurs
(case-insensitively) as a substring of the normalized name. -/
def immunityStep (cfg : CleansingConfig) (name : String)
    (st : String × String) : String × String :=
  if cfg.immunity.enabled && st.1 == "Válido" then
    if cfg.immunity.keywords.any (fun k => strContains name (jsToUpper k)) then
      ("Imune", "Entidade Imune identificada por palavra-chave")
    else st
  else st

/-- Rule 3 (exemption): the amount sub-check runs first and the tribute
sub-check runs second inside the same guarded block, so when both hold
the later tribute write wins the `motivo`. -/
def exemptionStep (cfg : CleansingConfig) (amount : ℚ) (tribute : String)
    (st : String × String) : String × String :=
  if cfg.exemption.enabled && st.1 == "Válido" then
    let st1 :=
      if 0 < cfg.exemption.amount_threshold ∧ amount < cfg.exemption.amount_threshold then
        ("Isento", "Valor abaixo de R$ " ++ qToString cfg.exemption.amount_threshold)
      else st
    if 0 < cfg.exemption.tributes.length ∧
        tribute ∈ cfg.exemption.tributes.map jsToUpper then
      ("Isento", "Tributo Isento")
    else st1
  else st

/-- The `isBadName` test of rule 4: a configured bad-name keyword occurs
in the normalized name, or the name is shorter than 3 characters. -/
def isBadNameFor (cfg : CleansingConfig) (name : String) : Bool :=
  cfg.incomplete.keywords.any (fun k => strContains name (jsToUpper k)) || name.length < 3

/-- The `isBadDoc` test of rule 4: only when `check_cpf_cnpj` is set AND
the document column is mapped AND the normalized document is empty. -/
def isBadDocFor (cfg : CleansingConfig) (doc : String) : Bool :=
  cfg.incomplete.check_cpf_cnpj && cfg.mapping.cpf_cnpj != "" && doc == ""

/-- Rule 4 (incomplete data). -/
def incompleteStep (cfg : CleansingConfig) (name doc : String)
    (st : String × String) : String × String :=
  if cfg.incomplete.enabled && st.1 == "Válido" then
    if isBadNameFor cfg name || isBadDocFor cfg doc then
      ("Dados Incompletos", "Nome ou CPF/CNPJ inválido/genérico")
    else st
  else st

/-- The `(status, motivo)` state after rule 1. -/
def classifyAfterPrescription (cfg : CleansingConfig) (now : ℤ) (row : Row) :
    String × String :=
  prescriptionStep cfg now (tempDateOf cfg.mapping row) ("Válido", "")

/-- The `(status, motivo)` state after rules 1–2. -/
def classifyAfterImmunity (cfg : CleansingConfig) (now : ℤ) (row : Row) :
    String × String :=
  immunityStep cfg (tempNameOf cfg.mapping row) (classifyAfterPrescription cfg now row)

/-- The `(status, motivo)` state after rules 1–3. -/
def classifyAfterExemption (cfg : CleansingConfig) (now : ℤ) (row : Row) :
    String × String :=
  exemptionStep cfg (tempAmountOf cfg.mapping row) (tempTributeOf cfg.mapping row)
    (classifyAfterImmunity cfg now row)

/-- The full per-row classification: the four ordered rule blocks of
`processData`, each firing only while the status is still `Válido`. -/
def classifyRow (cfg : CleansingConfig) (now : ℤ) (row : Row) : String × String :=
  incompleteStep cfg (tempNameOf cfg.mapping row) (tempDocOf cfg.mapping row)
    (classifyAfterExemption cfg now row)

/-- One row of `processedData`: the original row annotated with the
classification outcome. -/
def processRow (cfg : CleansingConfig) (now : ℤ) (row : Row) : Row :=
  annotateRow row (classifyRow cfg now row).1 (classifyRow cfg now row).2

/-- The status string stored on an annotated row (the classifier always
stores a string; other cell shapes never occur in `processedData`). -/
def statusOf (r : Row) : String :=
  match rowGet r statusKey with
  | .str s => s
  | _ => ""

/-- The aggregation loop state: per-status counters plus the two
monetary totals. -/
structure Tally where
  prescrito : ℕ
  imune : ℕ
  isento : ℕ
  incompletos : ℕ
  valido : ℕ
  removed : ℚ
  valid : ℚ
deriving DecidableEq

/-- The all-zero initial loop state. -/
def initTally : Tally :=
  ⟨0, 0, 0, 0, 0, 0, 0⟩

/-- The counter update of one summary-loop iteration: bump the counter
selected by the row's status (unknown statuses are ignored, which is the
`hasOwnProperty` guard of the source). -/
def tallyCounts (acc : Tally) (status : String) : Tally :=
  if status = "Prescrito" then { acc with prescrito := acc.prescrito + 1 }
  else if status = "Imune" then { acc with imune := acc.imune + 1 }
  else if status = "Isento" then { acc with isento := acc.isento + 1 }
  else if status = "Dados Incompletos" then { acc with incompletos := acc.incompletos + 1 }
  else if status = "Válido" then { acc with valido := acc.valido + 1 }
  else acc

/-- One iteration of the summary loop: the counter update, then the
re-parsed amount added to the valid or removed total. -/
def tallyStep (amountCol : String) (acc : Tally) (row : Row) : Tally :=
  if statusOf row ≠ "Válido" then
    { tallyCounts acc (statusOf row) with
      removed := (tallyCounts acc (statusOf row)).removed + parseAmount (rowGet row amountCol) }
  else
    { tallyCounts acc (statusOf row) with
      valid := (tallyCounts acc (statusOf row)).valid + parseAmount (rowGet row amountCol) }

/-- The aggregate record returned to the caller. -/
structure CleansingResult where
  total_records : ℕ
  processed_records : ℕ
  prescribed_count : ℕ
  immune_count : ℕ
  exempt_count : ℕ
  incomplete_count : ℕ
  valid_count : ℕ
  total_amount_removed : ℚ
  total_amount_valid : ℚ
deriving DecidableEq

/-- The full processing result. -/
structure ProcessResult where
  summary : CleansingResult
  preview : List Row
  processedData : List Row
deriving DecidableEq

/-- The summary computation of `processData` over the annotated rows. -/
def summarize (amountCol : String) (totalRows : ℕ) (processed : List Row) :
    CleansingResult :=
  let t := processed.foldl (tallyStep amountCol) initTally
  { total_records := totalRows
    processed_records := totalRows
    prescribed_count := t.prescrito
    immune_count := t.imune
    exempt_count := t.isento
    incomplete_count := t.incompletos
    valid_count := t.valido
    total_amount_removed := t.removed
    total_amount_valid := t.valid }

/-- The four required mapped columns, in required-field order. -/
def requiredColsOf (m : ColumnMapping) : List String :=
  [m.debt_id, m.taxpayer_name, m.due_date, m.amount]

/-- JS `data[0]?.hasOwnProperty col` (`false`, via falsiness of
`undefined`, when there is no first row). -/
def firstRowHas (data : List Row) (c : String) : Bool :=
  match data.head? with
  | some r => hasCol r c
  | none => false

/-- The `missingCols` filter of `processData`: required columns that are
mapped (truthy) but absent from the first row's keys. -/
def missingColsOf (m : ColumnMapping) (data : List Row) : List String :=
  (requiredColsOf m).filter (fun c => c != "" && !(firstRowHas data c))

/-- `processData`: validates the required columns against the first
row's schema (a failure is the single fatal configuration error), then
classifies and annotates every row and computes the summary.  Progress
callbacks are advisory telemetry and are omitted. -/
def processData (data : List Row) (cfg : CleansingConfig) (now : ℤ) :
    Except String ProcessResult :=
  if missingColsOf cfg.mapping data ≠ [] then
    .error ("Colunas não encontradas: " ++
      String.intercalate ", " (missingColsOf cfg.mapping data))
  else
    .ok
      { summary := summarize cfg.mapping.amount data.length (data.map (processRow cfg now))
        preview := (data.map (processRow cfg now)).take 100
        processedData := data.map (processRow cfg now) }

/-- A disabled prescription rule (witness data). -/
def offPrescription : PrescriptionRules := ⟨false, 5, none⟩

/-- A disabled immunity rule (witness data). -/
def offImmunity : ImmunityRules := ⟨false, []⟩

/-- A disabled exemption rule (witness data). -/
def offExemption : ExemptionRules := ⟨false, 0, []⟩

/-- A disabled incomplete rule (witness data). -/
def offIncomplete : IncompleteRules := ⟨false, [], false⟩

/-- A mapping with the four required fields mapped and the optional
fields unmapped (witness data). -/
def wMap : ColumnMapping := ⟨"id", "nome", "", "venc", "val", "", ""⟩

/-- A mapping that additionally maps the tribute-type column (witness
data). -/
def wMapTrib : ColumnMapping := ⟨"id", "nome", "", "venc", "val", "trib", ""⟩

/-- Witness configuration for the unmapped-document scenario: incomplete
rule on with the document check requested, document column unmapped. -/
def w1cfg : CleansingConfig :=
  ⟨wMap, offPrescription, offImmunity, offExemption, ⟨true, ["SEM NOME"], true⟩⟩

/-- Witness row with a good name, date and amount. -/
def w1row : Row :=
  [("id", .str "1"), ("nome", .str "FULANO DE TAL"), ("venc", .str "10/10/2030"),
    ("val", .num 100)]

/-- Configuration for the name-normalization scenarios: only the
incomplete rule is on, with no keywords and no document check. -/
def c3cfg : CleansingConfig :=
  ⟨wMap, offPrescription, offImmunity, offExemption, ⟨true, [], false⟩⟩

/-- Row whose raw name is a single letter padded with whitespace to
3 characters. -/
def c3row : Row :=
  [("id", .str "1"), ("nome", .str " a "), ("venc", .str "01/01/2030"), ("val", .num 10)]

/-- Row whose raw name has 2 characters. -/
def w3row : Row :=
  [("id", .str "1"), ("nome", .str "ab"), ("venc", .str "01/01/2030"), ("val", .num 10)]

/-- Witness configuration for the exemption double-write scenario. -/
def w4cfg : CleansingConfig :=
  ⟨wMapTrib, offPrescription, offImmunity, ⟨true, 50, ["iptu"]⟩, offIncomplete⟩

/-- Witness row below the exemption threshold and with an exempt tribute. -/
def w4row : Row :=
  [("id", .str "1"), ("nome", .str "FULANO DE TAL"), ("venc", .str ""),
    ("val", .num 10), ("trib", .str "IPTU")]

/-- Witness configuration for the rule-ordering scenario: prescription
(5 years) and immunity both on. -/
def w5cfg : CleansingConfig :=
  ⟨wMap, ⟨true, 5, none⟩, ⟨true, ["TEMPLO"]⟩, offExemption, offIncomplete⟩

/-- Witness row: due date 10 years in the past and an immunity keyword
in the name. -/
def w5row : Row :=
  [("id", .str "1"), ("nome", .str "TEMPLO CENTRAL"), ("venc", .str "10/10/2016"),
    ("val", .num 100)]

/-- The "now" of the rule-ordering witness: 2026-10-12. -/
def w5now : ℤ := daysFromCivil 2026 10 12

/-- Witness configuration whose `due_date` mapping names a column absent
from the data. -/
def w6cfg : CleansingConfig :=
  ⟨⟨"id", "nome", "", "data_venc", "val", "", ""⟩, offPrescription, offImmunity,
    offExemption, offIncomplete⟩

/-- Witness configuration with every rule disabled. -/
def wCfgOff : CleansingConfig :=
  ⟨wMap, offPrescription, offImmunity, offExemption, offIncomplete⟩

/-- Witness configuration: incomplete rule on with no keywords. -/
def w7cfg : CleansingConfig :=
  ⟨wMap, offPrescription, offImmunity, offExemption, ⟨true, [], false⟩⟩

/-- Witness row with a 2-character name (classified incomplete). -/
def w7row : Row :=
  [("id", .str "1"), ("nome", .str "AB"), ("venc", .str ""), ("val", .num 7)]

/-- The annotated form of `w7row`. -/
def w7rowAnn : Row :=
  w7row ++ [(statusKey, .str "Dados Incompletos"),
    (motivoKey, .str "Nome ou CPF/CNPJ inválido/genérico")]

/-- The processing result of `[w7row]` under `w7cfg` (the removed total
is left as the unreduced sum the aggregation loop builds). -/
def w7res : ProcessResult :=
  ⟨⟨1, 1, 0, 0, 0, 1, 0, 0 + 7, 0⟩, [w7rowAnn], [w7rowAnn]⟩

/-- Counterexample configuration mapping the amount field to the status
column that the annotation overwrites. -/
def c8cfg : CleansingConfig :=
  ⟨⟨"id", "nome", "", "venc", "Status_Higienizacao", "", ""⟩, offPrescription,
    offImmunity, offExemption, offIncomplete⟩

/-- Counterexample data: one row whose `Status_Higienizacao` column (used
as the amount column) holds 5. -/
def c8data : List Row :=
  [[("id", .str "1"), ("nome", .str "FULANO"), ("venc", .str ""),
    ("Status_Higienizacao", .num 5)]]

theorem find?_map_setKey_ne (k c : String) (v : CellValue) (h : c ≠ k) (r : Row) :
    (r.map (fun p => if p.1 == k then (k, v) else p)).find? (fun p => p.1 == c) =
      r.find? (fun p => p.1 == c) := by
  induction r with
  | nil => rfl
  | cons p t ih =>
    simp only [List.map_cons]
    by_cases hp : p.1 = k
    · rw [if_pos (by simp [hp]), List.find?_cons_of_neg _ (by simp [Ne.symm h]),
        List.find?_cons_of_neg _ (by simp [hp, Ne.symm h])]
      exact ih
    · rw [if_neg (by simp [hp])]
      by_cases hc : p.1 = c
      · rw [List.find?_cons_of_pos _ (by simp [hc]), List.find?_cons_of_pos _ (by simp [hc])]
      · rw [List.find?_cons_of_neg _ (by simp [hc]), List.find?_cons_of_neg _ (by simp [hc])]
        exact ih

theorem find?_map_setKey_self (k : String) (v : CellValue) (r : Row)
    (h : hasCol r k = true) :
    (r.map (fun p => if p.1 == k then (k, v) else p)).find? (fun p => p.1 == k) =
      some (k, v) := by
  induction r with
  | nil => simp [hasCol] at h
  | cons p t ih =>
    simp only [List.map_cons]
    by_cases hp : p.1 = k
    · rw [if_pos (by simp [hp]), List.find?_cons_of_pos _ (by simp)]
    · rw [if_neg (by simp [hp]), List.find?_cons_of_neg _ (by simp [hp])]
      exact ih (by simpa [hasCol, hp] using h)

theorem find?_not_hasCol (r : Row) (k : String) (h : hasCol r k = false) :
    r.find? (fun p => p.1 == k) = none := by
  rw [List.find?_eq_none]
  intro p hp
  simp only [hasCol, List.any_eq_false] at h
  exact h p hp

theorem rowGet_congr {r1 r2 : Row} (c : String)
    (h : r1.find? (fun p => p.1 == c) = r2.find? (fun p => p.1 == c)) :
    rowGet r1 c = rowGet r2 c := by
  unfold rowGet
  rw [h]

theorem rowGet_setKey_ne (r : Row) (k : String) (v : CellValue) (c : String) (h : c ≠ k) :
    rowGet (setKey r k v) c = rowGet r c := by
  refine rowGet_congr c ?_
  unfold setKey
  by_cases hk : hasCol r k = true
  · rw [if_pos hk]
    exact find?_map_setKey_ne k c v h r
  · rw [if_neg hk, List.find?_append]
    have hkc : (k == c) = false := beq_eq_false_iff_ne.mpr (Ne.symm h)
    have : List.find? (fun p => p.1 == c) [(k, v)] = none := by
      simp [List.find?, hkc]
    rw [this, Option.or_none]

theorem rowGet_setKey_self (r : Row) (k : String) (v : CellValue) :
    rowGet (setKey r k v) k = v := by
  have key : (setKey r k v).find? (fun p => p.1 == k) = some (k, v) := by
    unfold setKey
    by_cases hk : hasCol r k = true
    · rw [if_pos hk]
      exact find?_map_setKey_self k v r hk
    · rw [if_neg hk, List.find?_append,
        find?_not_hasCol r k (by simpa using hk)]
      simp [List.find?]
  unfold rowGet
  rw [key]

theorem statusKey_ne_motivoKey : statusKey ≠ motivoKey := by
  decide

theorem rowGet_annotateRow_ne (r : Row) (s mo : String) (c : String)
    (h1 : c ≠ statusKey) (h2 : c ≠ motivoKey) :
    rowGet (annotateRow r s mo) c = rowGet r c := by
  unfold annotateRow
  rw [rowGet_setKey_ne _ _ _ _ h2, rowGet_setKey_ne _ _ _ _ h1]

theorem statusOf_annotateRow (r : Row) (s mo : String) :
    statusOf (annotateRow r s mo) = s := by
  unfold statusOf annotateRow
  rw [rowGet_setKey_ne _ _ _ _ statusKey_ne_motivoKey, rowGet_setKey_self]

theorem statusOf_processRow (cfg : CleansingConfig) (now : ℤ) (row : Row) :
    statusOf (processRow cfg now row) = (classifyRow cfg now row).1 := by
  unfold processRow
  exact statusOf_annotateRow _ _ _

theorem tempDateOf_annotateRow (m : ColumnMapping) (row : Row) (s mo : String)
    (h1 : m.due_date ≠ statusKey) (h2 : m.due_date ≠ motivoKey) :
    tempDateOf m (annotateRow row s mo) = tempDateOf m row := by
  unfold tempDateOf
  rw [rowGet_annotateRow_ne _ _ _ _ h1 h2]

theorem tempAmountOf_annotateRow (m : ColumnMapping) (row : Row) (s mo : String)
    (h1 : m.amount ≠ statusKey) (h2 : m.amount ≠ motivoKey) :
    tempAmountOf m (annotateRow row s mo) = tempAmountOf m row := by
  unfold tempAmountOf
  rw [rowGet_annotateRow_ne _ _ _ _ h1 h2]

theorem tempNameOf_annotateRow (m : ColumnMapping) (row : Row) (s mo : String)
    (h1 : m.taxpayer_name ≠ statusKey) (h2 : m.taxpayer_name ≠ motivoKey) :
    tempNameOf m (annotateRow row s mo) = tempNameOf m row := by
  unfold tempNameOf
  rw [rowGet_annotateRow_ne _ _ _ _ h1 h2]

theorem tempDocOf_annotateRow (m : ColumnMapping) (row : Row) (s mo : String)
    (h1 : m.cpf_cnpj ≠ statusKey) (h2 : m.cpf_cnpj ≠ motivoKey) :
    tempDocOf m (annotateRow row s mo) = tempDocOf m row := by
  unfold tempDocOf
  rw [rowGet_annotateRow_ne _ _ _ _ h1 h2]

theorem tempTributeOf_annotateRow (m : ColumnMapping) (row : Row) (s mo : String)
    (h1 : m.tribute_type ≠ statusKey) (h2 : m.tribute_type ≠ motivoKey) :
    tempTributeOf m (annotateRow row s mo) = tempTributeOf m row := by
  unfold tempTributeOf
  rw [rowGet_annotateRow_ne _ _ _ _ h1 h2]

theorem prescriptionStep_stuck (cfg : CleansingConfig) (now : ℤ) (d? : Option ℤ)
    (st : String × String) (h : st.1 ≠ "Válido") :
    prescriptionStep cfg now d? st = st := by
  unfold prescriptionStep
  have hb : (st.1 == "Válido") = false := beq_eq_false_iff_ne.mpr h
  simp [hb]

theorem immunityStep_stuck (cfg : CleansingConfig) (name : String)
    (st : String × String) (h : st.1 ≠ "Válido") :
    immunityStep cfg name st = st := by
  unfold immunityStep
  have hb : (st.1 == "Válido") = false := beq_eq_false_iff_ne.mpr h
  simp [hb]

theorem exemptionStep_stuck (cfg : CleansingConfig) (amount : ℚ) (tribute : String)
    (st : String × String) (h : st.1 ≠ "Válido") :
    exemptionStep cfg amount tribute st = st := by
  unfold exemptionStep
  have hb : (st.1 == "Válido") = false := beq_eq_false_iff_ne.mpr h
  simp [hb]

theorem incompleteStep_stuck (cfg : CleansingConfig) (name doc : String)
    (st : String × String) (h : st.1 ≠ "Válido") :
    incompleteStep cfg name doc st = st := by
  unfold incompleteStep
  have hb : (st.1 == "Válido") = false := beq_eq_false_iff_ne.mpr h
  simp [hb]

theorem prescriptionStep_fst (cfg : CleansingConfig) (now : ℤ) (d? : Option ℤ)
    (st : String × String) :
    (prescriptionStep cfg now d? st).1 = st.1 ∨
      (prescriptionStep cfg now d? st).1 = "Prescrito" := by
  unfold prescriptionStep
  repeat' split
  all_goals simp

theorem immunityStep_fst (cfg : CleansingConfig) (name : String)
    (st : String × String) :
    (immunityStep cfg name st).1 = st.1 ∨ (immunityStep cfg name st).1 = "Imune" := by
  unfold immunityStep
  repeat' split
  all_goals simp

theorem exemptionStep_fst (cfg : CleansingConfig) (amount : ℚ) (tribute : String)
    (st : String × String) :
    (exemptionStep cfg amount tribute st).1 = st.1 ∨
      (exemptionStep cfg amount tribute st).1 = "Isento" := by
  unfold exemptionStep
  repeat' split
  all_goals simp

theorem incompleteStep_fst (cfg : CleansingConfig) (name doc : String)
    (st : String × String) :
    (incompleteStep cfg name doc st).1 = st.1 ∨
      (incompleteStep cfg name doc st).1 = "Dados Incompletos" := by
  unfold incompleteStep
  repeat' split
  all_goals simp

theorem classifyRow_fst_mem (cfg : CleansingConfig) (now : ℤ) (row : Row) :
    (classifyRow cfg now row).1 ∈
      ["Válido", "Prescrito", "Imune", "Isento", "Dados Incompletos"] := by
  unfold classifyRow classifyAfterExemption classifyAfterImmunity classifyAfterPrescription
  rcases incompleteStep_fst cfg (tempNameOf cfg.mapping row) (tempDocOf cfg.mapping row)
      (exemptionStep cfg (tempAmountOf cfg.mapping row) (tempTributeOf cfg.mapping row)
        (immunityStep cfg (tempNameOf cfg.mapping row)
          (prescriptionStep cfg now (tempDateOf cfg.mapping row) ("Válido", "")))) with
    h4 | h4
  · rw [h4]
    rcases exemptionStep_fst cfg (tempAmountOf cfg.mapping row)
        (tempTributeOf cfg.mapping row)
        (immunityStep cfg (tempNameOf cfg.mapping row)
          (prescriptionStep cfg now (tempDateOf cfg.mapping row) ("Válido", ""))) with
      h3 | h3
    · rw [h3]
      rcases immunityStep_fst cfg (tempNameOf cfg.mapping row)
          (prescriptionStep cfg now (tempDateOf cfg.mapping row) ("Válido", "")) with
        h2 | h2
      · rw [h2]
        rcases prescriptionStep_fst cfg now (tempDateOf cfg.mapping row) ("Válido", "") with
          h1 | h1
        · rw [h1]
          simp
        · rw [h1]
          simp
      · rw [h2]
        simp
    · rw [h3]
      simp
  · rw [h4]
    simp

theorem tallyCounts_removed (acc : Tally) (s : String) :
    (tallyCounts acc s).removed = acc.removed := by
  unfold tallyCounts
  repeat' split
  all_goals rfl

theorem tallyCounts_valid (acc : Tally) (s : String) :
    (tallyCounts acc s).valid = acc.valid := by
  unfold tallyCounts
  repeat' split
  all_goals rfl

theorem tallyCounts_sum (acc : Tally) (s : String)
    (h : s ∈ ["Válido", "Prescrito", "Imune", "Isento", "Dados Incompletos"]) :
    (tallyCounts acc s).valido + (tallyCounts acc s).prescrito +
      (tallyCounts acc s).imune + (tallyCounts acc s).isento +
      (tallyCounts acc s).incompletos =
    acc.valido + acc.prescrito + acc.imune + acc.isento + acc.incompletos + 1 := by
  unfold tallyCounts
  simp only [List.mem_cons, List.not_mem_nil, or_false] at h
  rcases h with h | h | h | h | h
  all_goals subst h
  all_goals simp
  all_goals omega

theorem tallyStep_counts (col : String) (acc : Tally) (row : Row)
    (h : statusOf row ∈ ["Válido", "Prescrito", "Imune", "Isento", "Dados Incompletos"]) :
    (tallyStep col acc row).valido + (tallyStep col acc row).prescrito +
      (tallyStep col acc row).imune + (tallyStep col acc row).isento +
      (tallyStep col acc row).incompletos =
    acc.valido + acc.prescrito + acc.imune + acc.isento + acc.incompletos + 1 := by
  unfold tallyStep
  split
  all_goals simpa using tallyCounts_sum acc (statusOf row) h

theorem tallyStep_amounts (col : String) (acc : Tally) (row : Row) :
    (tallyStep col acc row).removed + (tallyStep col acc row).valid =
      acc.removed + acc.valid + parseAmount (rowGet row col) := by
  unfold tallyStep
  split
  all_goals simp [tallyCounts_removed, tallyCounts_valid]
  all_goals ring

theorem foldl_tally_counts (col : String) :
    ∀ (rows : List Row) (acc : Tally),
      (∀ r ∈ rows,
        statusOf r ∈ ["Válido", "Prescrito", "Imune", "Isento", "Dados Incompletos"]) →
      (rows.foldl (tallyStep col) acc).valido + (rows.foldl (tallyStep col) acc).prescrito +
        (rows.foldl (tallyStep col) acc).imune + (rows.foldl (tallyStep col) acc).isento +
        (rows.foldl (tallyStep col) acc).incompletos =
      acc.valido + acc.prescrito + acc.imune + acc.isento + acc.incompletos +
        rows.length := by
  intro rows
  induction rows with
  | nil =>
    intro acc _
    simp
  | cons r t ih =>
    intro acc h
    simp only [List.foldl_cons, List.length_cons]
    rw [ih (tallyStep col acc r) (fun x hx => h x (List.mem_cons_of_mem _ hx)),
      tallyStep_counts col acc r (h r (List.mem_cons_self _ _))]
    omega

theorem foldl_tally_amounts (col : String) :
    ∀ (rows : List Row) (acc : Tally),
      (rows.foldl (tallyStep col) acc).removed + (rows.foldl (tallyStep col) acc).valid =
        acc.removed + acc.valid + (rows.map (fun r => parseAmount (rowGet r col))).sum := by
  intro rows
  induction rows with
  | nil =>
    intro acc
    simp
  | cons r t ih =>
    intro acc
    simp only [List.foldl_cons, List.map_cons, List.sum_cons]
    rw [ih (tallyStep col acc r), tallyStep_amounts col acc r]
    ring

/-- C1: when the incomplete rule is enabled with `check_cpf_cnpj = true`
but the `cpf_cnpj` field is unmapped, the document check can never fire:
a row that the earlier rules leave `Válido` and whose name is not bad is
classified `Válido`. -/
theorem claim1_unmapped_doc_stays_valid (cfg : CleansingConfig) (now : ℤ) (row : Row)
    (hmap : cfg.mapping.cpf_cnpj = "")
    (hcheck : cfg.incomplete.check_cpf_cnpj = true)
    (hrules : classifyAfterExemption cfg now row = ("Válido", ""))
    (hname : isBadNameFor cfg (tempNameOf cfg.mapping row) = false) :
    classifyRow cfg now row = ("Válido", "") := by
  have hdoc : isBadDocFor cfg (tempDocOf cfg.mapping row) = false := by
    unfold isBadDocFor
    simp [hmap]
  unfold classifyRow
  rw [hrules]
  unfold incompleteStep
  simp [hname, hdoc, hcheck]

/-- Witness for C1: a concrete row with a valid name, date and amount,
with the document column unmapped and `check_cpf_cnpj = true`. -/
theorem claim1_witness : classifyRow w1cfg 0 w1row = ("Válido", "") :=
  claim1_unmapped_doc_stays_valid w1cfg 0 w1row rfl rfl (by decide) (by decide)

/-- C2: `parseDate` maps any numeric value in `[1900, 2100]` to
January 1 of that year; in particular 2019 maps to 2019-01-01, which is
not the date obtained by the Excel-serial interpretation of 2019. -/
theorem claim2_parseDate_bare_year :
    (∀ n : ℤ, 1900 ≤ n → n ≤ 2100 →
      parseDate (CellValue.num (n : ℚ)) = some (mkDate n 0 1)) ∧
    parseDate (CellValue.num 2019) = some (daysFromCivil 2019 1 1) ∧
    excelSerialToDays 2019 ≠ daysFromCivil 2019 1 1 := by
  have key : ∀ n : ℤ, 1900 ≤ n → n ≤ 2100 →
      parseDate (CellValue.num (n : ℚ)) = some (mkDate n 0 1) := by
    intro n h1 h2
    have hf : isFalsy (CellValue.num (n : ℚ)) = false := by
      have : (n : ℚ) ≠ 0 := by
        exact_mod_cast (by omega : n ≠ 0)
      simp [isFalsy, this]
    unfold parseDate
    rw [hf]
    have hc : (1900 : ℚ) ≤ (n : ℚ) ∧ (n : ℚ) ≤ 2100 :=
      ⟨by exact_mod_cast h1, by exact_mod_cast h2⟩
    simp only [Bool.false_eq_true, if_false]
    rw [if_pos hc, Int.floor_intCast]
  refine ⟨key, ?_, by decide⟩
  have h2019 := key 2019 (by norm_num) (by norm_num)
  have hcast : ((2019 : ℤ) : ℚ) = (2019 : ℚ) := by norm_num
  rw [hcast] at h2019
  rw [h2019]
  have : mkDate 2019 0 1 = daysFromCivil 2019 1 1 := by decide
  rw [this]

/-- Witness for C2: the bare-year branch applied at 1999. -/
theorem claim2_witness : parseDate (CellValue.num ((1999 : ℤ) : ℚ)) =
    some (mkDate 1999 0 1) :=
  claim2_parseDate_bare_year.1 1999 (by norm_num) (by norm_num)

/-- C3 (amended): the normalized taxpayer name is the uppercased string
form of the raw cell with NO whitespace trimming, so the incomplete
rule's length check sees the padded length: when the earlier rules leave
`Válido`, no bad-name keyword matches and the document test is off, the
row is `Dados Incompletos` exactly when the UNtrimmed uppercased name is
shorter than 3 characters. -/
theorem claim3_name_not_trimmed (cfg : CleansingConfig) (now : ℤ) (row : Row)
    (hen : cfg.incomplete.enabled = true)
    (hrules : classifyAfterExemption cfg now row = ("Válido", ""))
    (hkw : (cfg.incomplete.keywords.any
      (fun k => strContains (tempNameOf cfg.mapping row) (jsToUpper k))) = false)
    (hdoc : isBadDocFor cfg (tempDocOf cfg.mapping row) = false) :
    (classifyRow cfg now row =
      if (tempNameOf cfg.mapping row).length < 3 then
        ("Dados Incompletos", "Nome ou CPF/CNPJ inválido/genérico")
      else ("Válido", "")) ∧
    tempNameOf cfg.mapping row =
      jsToUpper (jsString (jsOrEmpty (rowGet row cfg.mapping.taxpayer_name))) := by
  refine ⟨?_, rfl⟩
  unfold classifyRow
  rw [hrules]
  unfold incompleteStep isBadNameFor
  simp only [hen, hkw, hdoc, Bool.or_false, Bool.false_or, Bool.true_and]
  by_cases hl : (tempNameOf cfg.mapping row).length < 3
  · simp [hl]
  · simp [hl]

/-- Witness for the amended C3: a 2-character raw name is flagged by the
length check. -/
theorem claim3_witness :
    (classifyRow c3cfg 0 w3row =
      if (tempNameOf c3cfg.mapping w3row).length < 3 then
        ("Dados Incompletos", "Nome ou CPF/CNPJ inválido/genérico")
      else ("Válido", "")) ∧
    tempNameOf c3cfg.mapping w3row =
      jsToUpper (jsString (jsOrEmpty (rowGet w3row c3cfg.mapping.taxpayer_name))) :=
  claim3_name_not_trimmed c3cfg 0 w3row rfl (by decide) (by decide) (by decide)

/-- Counterexample to C3 as stated: the raw name `" a "` (one non-blank
character padded with whitespace to length 3) normalizes to `" A "`, not
to the trimmed `"A"`, and the row is classified `Válido` — the length
check does NOT treat it as a bad name. -/
theorem claim3_counterexample :
    tempNameOf c3cfg.mapping c3row = " A " ∧
    jsToUpper (jsTrim (jsString (jsOrEmpty (rowGet c3row c3cfg.mapping.taxpayer_name)))) =
      "A" ∧
    (" A " : String) ≠ "A" ∧
    classifyRow c3cfg 0 c3row = ("Válido", "") ∧
    (("Válido", "") : String × String) ≠
      ("Dados Incompletos", "Nome ou CPF/CNPJ inválido/genérico") := by
  refine ⟨by decide, by decide, by decide, by decide, by decide⟩

/-- C4: with the exemption rule enabled and both sub-checks true (the
threshold is positive and exceeds the amount, and the uppercased tribute
is configured exempt), the row is `Isento` and the reason is the
tribute-check text (the later write wins over the amount-check text). -/
theorem claim4_exemption_tribute_reason (cfg : CleansingConfig) (now : ℤ) (row : Row)
    (hen : cfg.exemption.enabled = true)
    (hrules : classifyAfterImmunity cfg now row = ("Válido", ""))
    (hthr : 0 < cfg.exemption.amount_threshold)
    (hamt : tempAmountOf cfg.mapping row < cfg.exemption.amount_threshold)
    (htrib : tempTributeOf cfg.mapping row ∈ cfg.exemption.tributes.map jsToUpper) :
    classifyRow cfg now row = ("Isento", "Tributo Isento") := by
  have hlen : 0 < cfg.exemption.tributes.length := by
    rcases List.mem_map.mp htrib with ⟨t, ht, _⟩
    exact List.length_pos.mpr (List.ne_nil_of_mem ht)
  have h3 : classifyAfterExemption cfg now row = ("Isento", "Tributo Isento") := by
    unfold classifyAfterExemption
    rw [hrules]
    unfold exemptionStep
    simp [hen, hthr, hamt, hlen, htrib]
  unfold classifyRow
  rw [h3]
  exact incompleteStep_stuck cfg _ _ _ (by decide)

/-- Witness for C4: amount 10 below threshold 50 and tribute `IPTU`
configured exempt (as `iptu`): the reason is the tribute text. -/
theorem claim4_witness : classifyRow w4cfg 0 w4row = ("Isento", "Tributo Isento") :=
  claim4_exemption_tribute_reason w4cfg 0 w4row rfl (by decide) (by decide)
    (by decide) (by decide)

/-- C5: the rules run in the fixed order prescription, immunity,
exemption, incomplete, and the first match wins: whenever the
prescription rule fires (enabled, parsed due date strictly before the
cutoff), the status is `Prescrito` with the cutoff reason — regardless
of the name, so the immunity rule is never applied to such a row. -/
theorem claim5_prescription_first (cfg : CleansingConfig) (now : ℤ) (row : Row) (t : ℤ)
    (hen : cfg.prescription.enabled = true)
    (hdate : tempDateOf cfg.mapping row = some t)
    (hlt : t < prescriptionCutoff cfg now) :
    classifyRow cfg now row =
      ("Prescrito", "Vencimento anterior a " ++ formatDateBR (prescriptionCutoff cfg now)) := by
  have h1 : classifyAfterPrescription cfg now row =
      ("Prescrito", "Vencimento anterior a " ++ formatDateBR (prescriptionCutoff cfg now)) := by
    unfold classifyAfterPrescription prescriptionStep
    rw [hdate]
    simp [hen, hlt]
  unfold classifyRow classifyAfterExemption classifyAfterImmunity
  rw [h1, immunityStep_stuck cfg _ _ (by simp), exemptionStep_stuck cfg _ _ _ (by simp),
    incompleteStep_stuck cfg _ _ _ (by simp)]

/-- Witness for C5: due date 2016-10-10, ten years before the reference
2026-10-12, with an immunity keyword in the name and both rules enabled:
the row is `Prescrito` by the 5-year cutoff 2021-10-12. -/
theorem claim5_witness :
    classifyRow w5cfg w5now w5row = ("Prescrito", "Vencimento anterior a 12/10/2021") := by
  rw [claim5_prescription_first w5cfg w5now w5row (daysFromCivil 2016 10 10)
    rfl (by decide) (by decide)]
  decide

/-- C6: when some required logical field is mapped to a column absent
from the first row's keys, `processData` fails with the single fatal
configuration error whose message lists the missing columns, comma
joined, in the required-field order (`debt_id`, `taxpayer_name`,
`due_date`, `amount`); no per-row result or summary is produced. -/
theorem claim6_missing_columns_fatal (data : List Row) (cfg : CleansingConfig) (now : ℤ)
    (hex : ∃ c ∈ requiredColsOf cfg.mapping, c ≠ "" ∧ firstRowHas data c = false) :
    processData data cfg now =
      .error ("Colunas não encontradas: " ++
        String.intercalate ", " (missingColsOf cfg.mapping data)) := by
  have hne : missingColsOf cfg.mapping data ≠ [] := by
    intro hnil
    obtain ⟨c, hc, hne', hf⟩ := hex
    have hb : (c != "" && !(firstRowHas data c)) = true := by
      rw [hf]
      simp [bne_iff_ne, hne']
    exact List.filter_eq_nil_iff.mp hnil c hc hb
  unfold processData
  rw [if_pos hne]

/-- Witness for C6: `due_date` mapped to `data_venc`, absent from the
row schema. -/
theorem claim6_witness :
    processData [w1row] w6cfg 0 = .error "Colunas não encontradas: data_venc" := by
  rw [claim6_missing_columns_fatal [w1row] w6cfg 0
    ⟨"data_venc", by decide, by decide, by decide⟩]
  rfl

theorem foldl_tally_counts_init (col : String) (rows : List Row)
    (h : ∀ r ∈ rows,
      statusOf r ∈ ["Válido", "Prescrito", "Imune", "Isento", "Dados Incompletos"]) :
    (rows.foldl (tallyStep col) initTally).valido +
      (rows.foldl (tallyStep col) initTally).prescrito +
      (rows.foldl (tallyStep col) initTally).imune +
      (rows.foldl (tallyStep col) initTally).isento +
      (rows.foldl (tallyStep col) initTally).incompletos = rows.length := by
  simpa [initTally] using foldl_tally_counts col rows initTally h

theorem foldl_tally_amounts_init (col : String) (rows : List Row) :
    (rows.foldl (tallyStep col) initTally).removed +
      (rows.foldl (tallyStep col) initTally).valid =
    (rows.map (fun r => parseAmount (rowGet r col))).sum := by
  simpa [initTally] using foldl_tally_amounts col rows initTally

/-- C7: whenever `processData` succeeds, the five status counts sum to
`total_records` and `processed_records` equals `total_records` (no row
is dropped). -/
theorem claim7_counts_partition (data : List Row) (cfg : CleansingConfig) (now : ℤ)
    (r : ProcessResult) (h : processData data cfg now = .ok r) :
    r.summary.valid_count + r.summary.prescribed_count + r.summary.immune_count +
        r.summary.exempt_count + r.summary.incomplete_count = r.summary.total_records ∧
    r.summary.processed_records = r.summary.total_records := by
  unfold processData at h
  split at h
  · simp at h
  · rw [Except.ok.injEq] at h
    subst h
    refine ⟨?_, rfl⟩
    have hmem : ∀ x ∈ data.map (processRow cfg now),
        statusOf x ∈ ["Válido", "Prescrito", "Imune", "Isento", "Dados Incompletos"] := by
      intro x hx
      rcases List.mem_map.mp hx with ⟨y, _, rfl⟩
      rw [statusOf_processRow]
      exact classifyRow_fst_mem cfg now y
    have hc := foldl_tally_counts_init cfg.mapping.amount
      (data.map (processRow cfg now)) hmem
    show (List.foldl (tallyStep cfg.mapping.amount) initTally
        (data.map (processRow cfg now))).valido +
      (List.foldl (tallyStep cfg.mapping.amount) initTally
        (data.map (processRow cfg now))).prescrito +
      (List.foldl (tallyStep cfg.mapping.amount) initTally
        (data.map (processRow cfg now))).imune +
      (List.foldl (tallyStep cfg.mapping.amount) initTally
        (data.map (processRow cfg now))).isento +
      (List.foldl (tallyStep cfg.mapping.amount) initTally
        (data.map (processRow cfg now))).incompletos = data.length
    simpa using hc

/-- Witness for C7: one row classified incomplete; the counts sum to 1. -/
theorem claim7_witness :
    w7res.summary.valid_count + w7res.summary.prescribed_count +
        w7res.summary.immune_count + w7res.summary.exempt_count +
        w7res.summary.incomplete_count = w7res.summary.total_records ∧
    w7res.summary.processed_records = w7res.summary.total_records :=
  claim7_counts_partition [w7row] w7cfg 0 w7res rfl

/-- C8 (amended): whenever `processData` succeeds AND the mapped amount
column is not one of the two added annotation columns, the valid and
removed totals sum exactly to the sum of the parsed amounts of the input
rows.  (When the amount field is mapped to `Status_Higienizacao` or
`Motivo_Higienizacao`, the annotation overwrites the cell the summary
loop re-reads, and the equality can fail — see the counterexample.) -/
theorem claim8_amount_conservation (data : List Row) (cfg : CleansingConfig) (now : ℤ)
    (r : ProcessResult) (h : processData data cfg now = .ok r)
    (h1 : cfg.mapping.amount ≠ statusKey) (h2 : cfg.mapping.amount ≠ motivoKey) :
    r.summary.total_amount_valid + r.summary.total_amount_removed =
      (data.map (fun row => parseAmount (rowGet row cfg.mapping.amount))).sum := by
  unfold processData at h
  split at h
  · simp at h
  · rw [Except.ok.injEq] at h
    subst h
    have hamt := foldl_tally_amounts_init cfg.mapping.amount
      (data.map (processRow cfg now))
    have hmap : (data.map (processRow cfg now)).map
        (fun x => parseAmount (rowGet x cfg.mapping.amount)) =
        data.map (fun row => parseAmount (rowGet row cfg.mapping.amount)) := by
      rw [List.map_map]
      have hfun : (fun x => parseAmount (rowGet x cfg.mapping.amount)) ∘ processRow cfg now =
          fun row => parseAmount (rowGet row cfg.mapping.amount) := by
        funext row
        simp only [Function.comp]
        unfold processRow
        rw [rowGet_annotateRow_ne _ _ _ _ h1 h2]
      rw [hfun]
    rw [hmap] at hamt
    show (List.foldl (tallyStep cfg.mapping.amount) initTally
        (data.map (processRow cfg now))).valid +
      (List.foldl (tallyStep cfg.mapping.amount) initTally
        (data.map (processRow cfg now))).removed =
      (data.map (fun row => parseAmount (rowGet row cfg.mapping.amount))).sum
    linarith [hamt]

/-- Witness for the amended C8: the removed total 7 equals the one
parsed input amount. -/
theorem claim8_witness :
    w7res.summary.total_amount_valid + w7res.summary.total_amount_removed =
      ([w7row].map (fun row => parseAmount (rowGet row w7cfg.mapping.amount))).sum :=
  claim8_amount_conservation [w7row] w7cfg 0 w7res rfl (by decide) (by decide)

/-- Counterexample to C8 as stated: mapping the amount field to the
`Status_Higienizacao` column passes schema validation, but the
annotation overwrites that cell, so the totals (0) no longer equal the
input amount sum (5). -/
theorem claim8_counterexample :
    (match processData c8data c8cfg 0 with
      | .ok r => r.summary.total_amount_valid + r.summary.total_amount_removed
      | .error _ => 99) = 0 ∧
    (c8data.map (fun row => parseAmount (rowGet row c8cfg.mapping.amount))).sum = 5 ∧
    (0 : ℚ) ≠ 5 := by
  refine ⟨?_, ?_, by norm_num⟩
  · show (0 : ℚ) + 0 + 0 = 0
    norm_num
  · show (5 : ℚ) + 0 = 5
    norm_num

/-- C9: classification is a pure function of the row, the mapping and
the configuration: re-classifying an annotated row (whose two added
columns are not referenced by the mapping) gives the identical status
and reason. -/
theorem claim9_reclassify_same (cfg : CleansingConfig) (now : ℤ) (row : Row)
    (s mo : String)
    (h1 : cfg.mapping.due_date ≠ statusKey) (h2 : cfg.mapping.due_date ≠ motivoKey)
    (h3 : cfg.mapping.amount ≠ statusKey) (h4 : cfg.mapping.amount ≠ motivoKey)
    (h5 : cfg.mapping.taxpayer_name ≠ statusKey)
    (h6 : cfg.mapping.taxpayer_name ≠ motivoKey)
    (h7 : cfg.mapping.cpf_cnpj ≠ statusKey) (h8 : cfg.mapping.cpf_cnpj ≠ motivoKey)
    (h9 : cfg.mapping.tribute_type ≠ statusKey)
    (h10 : cfg.mapping.tribute_type ≠ motivoKey) :
    classifyRow cfg now (annotateRow row s mo) = classifyRow cfg now row := by
  unfold classifyRow classifyAfterExemption classifyAfterImmunity classifyAfterPrescription
  rw [tempDateOf_annotateRow _ _ _ _ h1 h2, tempAmountOf_annotateRow _ _ _ _ h3 h4,
    tempNameOf_annotateRow _ _ _ _ h5 h6, tempDocOf_annotateRow _ _ _ _ h7 h8,
    tempTributeOf_annotateRow _ _ _ _ h9 h10]

/-- Witness for C9: re-classifying an annotated concrete row changes
nothing. -/
theorem claim9_witness :
    classifyRow w5cfg w5now (annotateRow w5row "Imune" "x") =
      classifyRow w5cfg w5now w5row :=
  claim9_reclassify_same w5cfg w5now w5row "Imune" "x" (by decide) (by decide)
    (by decide) (by decide) (by decide) (by decide) (by decide) (by decide)
    (by decide) (by decide)

/-- C10: on an empty row sequence with all four required fields mapped,
`processData` raises the missing-columns error naming every required
column (there is no first row to carry them); it never returns an empty
summary with `total_records = 0`. -/
theorem claim10_empty_input_fatal (cfg : CleansingConfig) (now : ℤ)
    (h1 : cfg.mapping.debt_id ≠ "") (h2 : cfg.mapping.taxpayer_name ≠ "")
    (h3 : cfg.mapping.due_date ≠ "") (h4 : cfg.mapping.amount ≠ "") :
    processData [] cfg now =
      .error ("Colunas não encontradas: " ++ String.intercalate ", "
        [cfg.mapping.debt_id, cfg.mapping.taxpayer_name, cfg.mapping.due_date,
          cfg.mapping.amount]) := by
  have b1 : (cfg.mapping.debt_id != "") = true := by simp [bne_iff_ne, h1]
  have b2 : (cfg.mapping.taxpayer_name != "") = true := by simp [bne_iff_ne, h2]
  have b3 : (cfg.mapping.due_date != "") = true := by simp [bne_iff_ne, h3]
  have b4 : (cfg.mapping.amount != "") = true := by simp [bne_iff_ne, h4]
  have hm : missingColsOf cfg.mapping [] =
      [cfg.mapping.debt_id, cfg.mapping.taxpayer_name, cfg.mapping.due_date,
        cfg.mapping.amount] := by
    unfold missingColsOf requiredColsOf firstRowHas
    simp [List.filter, b1, b2, b3, b4]
  unfold processData
  rw [hm]
  rw [if_pos (by simp)]

/-- Witness for C10: the fully-mapped configuration on zero rows fails
naming all four columns. -/
theorem claim10_witness :
    processData [] wCfgOff 0 = .error "Colunas não encontradas: id, nome, venc, val" := by
  rw [claim10_empty_input_fatal wCfgOff 0 (by decide) (by decide) (by decide) (by decide)]
  rfl
